import Mathlib

/-!
Shallow embedding of the kanji worksheet generator (`sheetcreator.py` and
`overrides.py`).  Geometry is modelled over `ℚ` (the Python floats are only
added, subtracted, multiplied and divided by constants, so rational
arithmetic is an exact model).  The fpdf2 canvas is modelled by `PdfState`:
a cursor position, the page margins, and the list of drawing operations
emitted so far.  Cursor semantics follow fpdf2: `cell` moves the cursor
right (`XPos.RIGHT`) or leaves it (`XPos.LEFT`), and down (`YPos.NEXT`) or
not (`YPos.TOP`); `multi_cell` is used by the program only with
`new_x=RIGHT, new_y=TOP`; `ln h` moves to the left margin and down by `h`;
`set_y` sets the ordinate and moves the abscissa back to the left margin
(fpdf2 behaviour).  External effects are parameters: `Env` carries the
romanisation function, Python's `str.capitalize`, and the stroke-image
existence check; the remote API is a function argument; a loaded JSON
dictionary file is a list of `PyVal` values.
-/

/-- Style option flags, one boolean per member of the `StyleOptions` IntFlag. -/
structure StyleOptions where
  bigKanji : Bool := false
  showRomaji : Bool := false
  showRegularKanji : Bool := false
  crossGuide : Bool := false
  showDictionary : Bool := false
deriving DecidableEq

/-- A dictionary compound: a word and its translations (`KanjiDictionaryEntry`). -/
structure KanjiDictionaryEntry where
  word : String
  translations : List String
deriving DecidableEq

/-- One kanji record (`KanjiData`): symbol, readings, meanings, dictionary
entries, and the derived stroke-diagram file identifier. -/
structure KanjiData where
  symbol : String
  stroke_diagram_file : String
  kun_readings : List String
  on_readings : List String
  meanings : List String
  dictionary_entries : List KanjiDictionaryEntry
deriving DecidableEq

/-- Placeholder record used as the default value of list indexing. -/
def noKanji : KanjiData := ⟨"", "", [], [], [], []⟩

/-- Lowercase hexadecimal rendering of a number padded to five digits,
modelling Python's `"%05x" % n`. -/
def hex5 (n : ℕ) : String :=
  let ds := Nat.toDigits 16 n
  String.mk (List.replicate (5 - ds.length) '0' ++ ds)

/-- The `KanjiData.__init__` constructor: stores the symbol and derives the
stroke-diagram file name from the first character's code point.  Returns
`none` for the empty string, where `ord(sym[0])` would raise `IndexError`. -/
def mkKanjiData (sym : String) : Option KanjiData :=
  match sym.data with
  | [] => none
  | c :: _ => some ⟨sym, hex5 c.toNat, [], [], [], []⟩

/-- External environment of the renderer: the `romkan.to_roma`
transliteration, Python's `str.capitalize`, and the `os.path.exists` check
for a stroke-diagram image (keyed by the record's stroke-diagram file id). -/
structure Env where
  to_roma : String → String
  pycapitalize : String → String
  strokeExists : String → Bool

/-- Trivial environment used to instantiate witnesses. -/
def env0 : Env := ⟨id, id, fun _ => false⟩

/-- The `grouper(3, ·)` helper: chunks of three, the last chunk padded with
`None` (here `none`). -/
def grouper3 {α : Type} : List α → List (List (Option α))
  | [] => []
  | [a] => [[some a, none, none]]
  | [a, b] => [[some a, some b, none]]
  | a :: b :: c :: rest => [some a, some b, some c] :: grouper3 rest

/-- Drawing operations recorded on the canvas. -/
inductive PdfOp where
  | cell (w h : ℚ) (border : Bool) (text : Option String)
  | multiCell (w h : ℚ) (text : String)
  | line (x1 y1 x2 y2 : ℚ)
  | image (name : String) (w h : ℚ)
  | setFont (family fontStyle : String) (size : ℚ)
  | setDrawColor (r g b : ℕ)
  | addPage
deriving DecidableEq

/-- Horizontal cursor policy of `cell` (fpdf2 `XPos`). -/
inductive XPos where
  | RIGHT
  | LEFT
deriving DecidableEq

/-- Vertical cursor policy of `cell` (fpdf2 `YPos`). -/
inductive YPos where
  | TOP
  | NEXT
deriving DecidableEq

/-- The fpdf2 canvas state: page size, margins, cursor, emitted operations. -/
structure PdfState where
  w : ℚ
  h : ℚ
  lMargin : ℚ
  tMargin : ℚ
  x : ℚ
  y : ℚ
  ops : List PdfOp
deriving DecidableEq

namespace PdfState

/-- fpdf2 `cell`: emit the cell, then move the cursor per `new_x`/`new_y`. -/
def cell (s : PdfState) (cw ch : ℚ) (border : Bool) (text : Option String)
    (nx : XPos) (ny : YPos) : PdfState :=
  { s with
    x := match nx with
      | .RIGHT => s.x + cw
      | .LEFT => s.x
    y := match ny with
      | .TOP => s.y
      | .NEXT => s.y + ch
    ops := s.ops ++ [.cell cw ch border text] }

/-- fpdf2 `multi_cell` as used here (`new_x=RIGHT`, `new_y=TOP`): the cursor
moves right of the cell and stays at its top. -/
def multi_cell (s : PdfState) (cw ch : ℚ) (text : String) : PdfState :=
  { s with x := s.x + cw, ops := s.ops ++ [.multiCell cw ch text] }

/-- fpdf2 `ln`: back to the left margin, down by `ch`. -/
def ln (s : PdfState) (ch : ℚ) : PdfState :=
  { s with x := s.lMargin, y := s.y + ch }

/-- fpdf2 `set_x`. -/
def set_x (s : PdfState) (v : ℚ) : PdfState :=
  { s with x := v }

/-- fpdf2 `set_y`: sets the ordinate and moves the abscissa back to the
left margin. -/
def set_y (s : PdfState) (v : ℚ) : PdfState :=
  { s with x := s.lMargin, y := v }

/-- fpdf2 `set_font`. -/
def set_font (s : PdfState) (family fontStyle : String) (size : ℚ) : PdfState :=
  { s with ops := s.ops ++ [.setFont family fontStyle size] }

/-- fpdf2 `set_draw_color`. -/
def set_draw_color (s : PdfState) (r g b : ℕ) : PdfState :=
  { s with ops := s.ops ++ [.setDrawColor r g b] }

/-- fpdf2 `line`: draws without moving the cursor. -/
def line (s : PdfState) (x1 y1 x2 y2 : ℚ) : PdfState :=
  { s with ops := s.ops ++ [.line x1 y1 x2 y2] }

/-- fpdf2 `image` with explicit coordinates: draws without moving the cursor. -/
def image (s : PdfState) (name : String) (iw ih : ℚ) : PdfState :=
  { s with ops := s.ops ++ [.image name iw ih] }

/-- fpdf2 `add_page`: the cursor returns to the top-left margin corner. -/
def add_page (s : PdfState) : PdfState :=
  { s with x := s.lMargin, y := s.tMargin, ops := s.ops ++ [.addPage] }

end PdfState

/-- `render_write_cell`: optional cross guide lines, then a bordered square
cell. -/
def render_write_cell (style : StyleOptions) (pdf : PdfState) (cell_width : ℚ) :
    PdfState :=
  let pdf :=
    if style.crossGuide then
      let pdf := pdf.set_draw_color 188 188 188
      let pdf := pdf.line pdf.x (pdf.y + cell_width / 2) (pdf.x + cell_width)
        (pdf.y + cell_width / 2)
      pdf.line (pdf.x + cell_width / 2) pdf.y (pdf.x + cell_width / 2)
        (pdf.y + cell_width)
    else pdf
  (pdf.set_draw_color 0 0 0).cell cell_width cell_width true none .RIGHT .TOP

/-- `render_readings`: the literal text `"none"` for an empty list, otherwise
the comma-joined readings over the comma-joined romanisations. -/
def render_readings (env : Env) (pdf : PdfState) (cell_width : ℚ)
    (readings : List String) : PdfState :=
  if readings.length = 0 then
    pdf.cell (cell_width * 3) cell_width true (some "none") .RIGHT .TOP
  else
    let kana_readings := String.intercalate ", " readings
    let romaji_readings := String.intercalate ", " (readings.map env.to_roma)
    pdf.multi_cell (cell_width * 3) cell_width (kana_readings ++ "\n" ++ romaji_readings)

/-- `render_meaning_block`: capitalised meanings joined by `", "`. -/
def render_meaning_block (env : Env) (pdf : PdfState) (kanji : KanjiData)
    (cell_width : ℚ) (cells : ℚ) : PdfState :=
  let meaningText := String.intercalate ", " (kanji.meanings.map env.pycapitalize)
  pdf.multi_cell (cell_width * cells) cell_width meaningText

/-- Body of the `for dictionaryEntry in entries` loop of
`render_dictionary_sub_block`: stops at the first `none` fill value. -/
def render_dictionary_sub_entries (originX paddingSize textLineHeight cell_width : ℚ) :
    PdfState → List (Option KanjiDictionaryEntry) → PdfState
  | pdf, [] => pdf
  | pdf, none :: _ => pdf
  | pdf, some e :: rest =>
    let pdf := pdf.set_x (originX + paddingSize)
    let pdf := pdf.set_font "NotoSansJP" "B" 8
    let pdf := pdf.cell (cell_width * 3) textLineHeight false (some e.word) .LEFT .NEXT
    let pdf := pdf.set_x (originX + paddingSize)
    let pdf := pdf.set_font "NotoSansJP" "" 8
    let translations := String.intercalate "; " e.translations
    let pdf := pdf.cell (cell_width * 3) textLineHeight false (some translations) .LEFT .NEXT
    let pdf := pdf.set_y (pdf.y + paddingSize)
    render_dictionary_sub_entries originX paddingSize textLineHeight cell_width pdf rest

/-- `render_dictionary_sub_block`: one column of up to three
word/translation sub-entries at a horizontal offset given by `column`. -/
def render_dictionary_sub_block (pdf : PdfState)
    (entries : List (Option KanjiDictionaryEntry)) (column : ℕ) (cell_width : ℚ) :
    PdfState :=
  let originX := pdf.x + (column * (cell_width * 4))
  let originY := pdf.y
  let paddingSize := cell_width / 10
  let pdf := pdf.set_x (originX + paddingSize)
  let pdf := pdf.set_y (originY + paddingSize)
  let textLineHeight := cell_width / 4
  render_dictionary_sub_entries originX paddingSize textLineHeight cell_width pdf entries

/-- The `for i in range(len(columns))` loop of `render_dictionary_block`:
each iteration restores the cursor to the block origin before rendering the
column at the running index. -/
def render_dictionary_columns (oldX oldY cell_width : ℚ) :
    PdfState → List (List (Option KanjiDictionaryEntry)) → ℕ → PdfState
  | pdf, [], _ => pdf
  | pdf, c :: rest, i =>
    let pdf := (pdf.set_x oldX).set_y oldY
    let pdf := render_dictionary_sub_block pdf c i cell_width
    render_dictionary_columns oldX oldY cell_width pdf rest (i + 1)

/-- `render_dictionary_block`: a fixed-size bordered rectangle, then up to
three columns of sub-entries rendered inside it, then the cursor restored to
the origin and advanced past the rectangle. -/
def render_dictionary_block (pdf : PdfState) (kanji : KanjiData)
    (cell_width : ℚ) : PdfState :=
  let oldX := pdf.x
  let oldY := pdf.y
  let paddingSize := cell_width / 10
  let textLineHeight := cell_width / 4
  let height := ((min 3 kanji.dictionary_entries.length : ℕ) *
    (2 * textLineHeight + paddingSize)) + (2 * paddingSize)
  let pdf := pdf.cell (cell_width * 12) height true none .RIGHT .TOP
  let columns := (grouper3 kanji.dictionary_entries).take 3
  let pdf := render_dictionary_columns oldX oldY cell_width pdf columns 0
  let pdf := (pdf.set_x oldX).set_y oldY
  pdf.ln height

/-- `calc_kanji_block_height`: base height for the diagram area plus the
inter-entry spacer, plus the dictionary rectangle height when dictionary
display is active and the record has entries. -/
def calc_kanji_block_height (style : StyleOptions) (kanji : KanjiData)
    (cell_width : ℚ) : ℚ :=
  let baseHeight :=
    if style.bigKanji then cell_width * 4 else cell_width * 3
  let baseHeight := baseHeight + (1 / 4) * cell_width
  let additionalHeight :=
    if style.showDictionary ∧ 0 < kanji.dictionary_entries.length then
      let paddingSize := cell_width / 10
      let textLineHeight := cell_width / 4
      ((2 * textLineHeight + paddingSize) *
        (min kanji.dictionary_entries.length 3 : ℕ)) + (paddingSize * 2)
    else 0
  baseHeight + additionalHeight

/-- One row of `numWriteCellsInX` writing-practice cells (the
`for _ in range(numWriteCellsInX)` loop). -/
def render_write_row (style : StyleOptions) (pdf : PdfState) (cell_width : ℚ) :
    ℕ → PdfState
  | 0 => pdf
  | n + 1 => render_write_cell style (render_write_row style pdf cell_width n) cell_width

/-- `render_kanji_block`: the full block for one record — optional plain
glyph, meanings, readings, stroke diagram, writing-practice rows, optional
dictionary block, trailing gap. -/
def render_kanji_block (env : Env) (style : StyleOptions) (pdf : PdfState)
    (kanji : KanjiData) (cell_width : ℚ) : PdfState :=
  let pdf := pdf.set_font "NotoSansJP" "" 12
  let pdf :=
    if style.showRegularKanji then
      let pdf := pdf.set_font "NotoSansJP" "" 24
      let pdf := pdf.cell (cell_width * 1) cell_width true (some kanji.symbol) .RIGHT .TOP
      let pdf := pdf.set_font "NotoSansJP" "B" 12
      render_meaning_block env pdf kanji cell_width 5
    else
      let pdf := pdf.set_font "NotoSansJP" "B" 12
      render_meaning_block env pdf kanji cell_width 6
  let pdf := pdf.set_font "NotoSansJP" "B" 12
  let pdf := render_readings env pdf cell_width kanji.on_readings
  let pdf := render_readings env pdf cell_width kanji.kun_readings
  let pdf := pdf.ln cell_width
  let kanjiBlockSize : ℚ := if style.bigKanji then 3 else 2
  let pdf := pdf.cell (cell_width * kanjiBlockSize) (cell_width * kanjiBlockSize)
    true none .LEFT .TOP
  let pdf :=
    if env.strokeExists kanji.stroke_diagram_file then
      pdf.image (kanji.stroke_diagram_file ++ ".png")
        (cell_width * kanjiBlockSize) (cell_width * kanjiBlockSize)
    else
      pdf.cell (cell_width * kanjiBlockSize) (cell_width * kanjiBlockSize)
        true none .RIGHT .TOP
  let numWriteCellsInX : ℕ := if style.bigKanji then 9 else 10
  let pdf := pdf.set_x (cell_width * (kanjiBlockSize + 1 / 2))
  let pdf := render_write_row style pdf cell_width numWriteCellsInX
  let pdf := pdf.ln cell_width
  let pdf := pdf.set_x (cell_width * (kanjiBlockSize + 1 / 2))
  let pdf := render_write_row style pdf cell_width numWriteCellsInX
  let pdf :=
    if style.bigKanji then
      let pdf := pdf.ln cell_width
      let pdf := pdf.set_x (cell_width * (kanjiBlockSize + 1 / 2))
      render_write_row style pdf cell_width numWriteCellsInX
    else pdf
  if style.showDictionary ∧ 0 < kanji.dictionary_entries.length then
    let pdf := pdf.ln cell_width
    let pdf := render_dictionary_block pdf kanji cell_width
    pdf.ln (cell_width * (1 / 4))
  else
    pdf.ln (cell_width * (5 / 4))

/-- The drawing operations emitted by rendering step `f` on state `s`
(every primitive appends to the operation list, so dropping the old prefix
yields the new operations). -/
def newOps (f : PdfState → PdfState) (s : PdfState) : List PdfOp :=
  (f s).ops.drop s.ops.length

/-- Texts of the `cell` operations of an operation list that carry a text. -/
def cellTexts : List PdfOp → List String
  | [] => []
  | .cell _ _ _ (some t) :: rest => t :: cellTexts rest
  | _ :: rest => cellTexts rest

/-- Body of the `for kanji in kanjis` loop of `renderDocument`, instrumented:
besides the canvas and the final `heightLeft`, it records for every record
whether `add_page` was called before it and the `heightLeft` value after it. -/
def renderLoop (env : Env) (style : StyleOptions) (cell_width availHeightPerPage : ℚ) :
    PdfState → ℚ → List KanjiData → PdfState × ℚ × List (Bool × ℚ)
  | pdf, heightLeft, [] => (pdf, heightLeft, [])
  | pdf, heightLeft, kanji :: rest =>
    let kanjiBlockHeight := calc_kanji_block_height style kanji cell_width
    let brk : Bool := decide (heightLeft < kanjiBlockHeight)
    let pdf := if brk then pdf.add_page else pdf
    let heightLeft := if brk then availHeightPerPage else heightLeft
    let pdf := render_kanji_block env style pdf kanji cell_width
    let heightLeft := heightLeft - kanjiBlockHeight
    let res := renderLoop env style cell_width availHeightPerPage pdf heightLeft rest
    (res.1, res.2.1, (brk, heightLeft) :: res.2.2)

/-- `renderDocument` (its layout part; PDF font registration and file output
are external effects): derives the grid unit from the page width, sets the
margins, opens the first page and runs the per-record loop.  The page format
of `FPDF()` is a parameter `(w, h)`. -/
def renderDocument (env : Env) (style : StyleOptions) (w h : ℚ)
    (kanjis : List KanjiData) : PdfState × ℚ × List (Bool × ℚ) :=
  let pdf : PdfState := ⟨w, h, 0, 0, 0, 0, []⟩
  let pdf := pdf.set_font "NotoSansJP" "" 14
  let cell_width := w / 13
  let pdf := { pdf with lMargin := cell_width / 2, tMargin := cell_width / 2 }
  let availHeightPerPage := h - cell_width
  let pdf := pdf.add_page
  renderLoop env style cell_width availHeightPerPage pdf availHeightPerPage kanjis

/-- A manual override record (`DictionaryOverride` namedtuple with fields
`meanings, on, kun`, all defaulting to `None`; `on` and `kun` are renamed
`onOv` and `kunOv` because `on` is reserved notation in Lean). -/
structure DictionaryOverride where
  meanings : Option (List String) := none
  onOv : Option (List String) := none
  kunOv : Option (List String) := none
deriving DecidableEq

/-- The override table of `overrides.py`. -/
def overrides : List (String × DictionaryOverride) :=
  [("本", { meanings := some ["book"] }),
   ("年", { meanings := some ["year"] }),
   ("日", { meanings := some ["day", "japan"] }),
   ("見", { meanings := some ["see", "show"] }),
   ("行", { meanings := some ["going", "journey"] })]

/-- Lookup in the override table (`overrides[symbol]`). -/
def overridesLookup (sym : String) : Option DictionaryOverride :=
  (overrides.find? (fun p => p.1 == sym)).map Prod.snd

/-- Body of the `for kanji in kanjis` loop of `applyOverrides`: replaces each
field for which the override carries a value. -/
def applyOverride1 (kanji : KanjiData) : KanjiData :=
  match overridesLookup kanji.symbol with
  | none => kanji
  | some ov =>
    let kanji :=
      match ov.meanings with
      | some m => { kanji with meanings := m }
      | none => kanji
    let kanji :=
      match ov.onOv with
      | some v => { kanji with on_readings := v }
      | none => kanji
    match ov.kunOv with
    | some v => { kanji with kun_readings := v }
    | none => kanji

/-- `applyOverrides` over the record list. -/
def applyOverrides (kanjis : List KanjiData) : List KanjiData :=
  kanjis.map applyOverride1

/-- A decoded JSON value of the dictionary file (strings and arrays are the
only shapes the file format uses). -/
inductive PyVal where
  | vstr : String → PyVal
  | vlist : List PyVal → PyVal

/-- A `PyVal` as a string. -/
def asStr : PyVal → Option String
  | .vstr s => some s
  | .vlist _ => none

/-- A `PyVal` as a list. -/
def asList : PyVal → Option (List PyVal)
  | .vstr _ => none
  | .vlist l => some l

/-- A `PyVal` as a list of strings.  The Python code stores the unpacked
reading/meaning fields without validation and a non-string-list field only
fails later while rendering; the model requires well-typed fields at load
time. -/
def asStrList (v : PyVal) : Option (List String) :=
  match v with
  | .vlist l => l.mapM asStr
  | .vstr _ => none

/-- One iteration of the `for entry in dictionaryEntries` loop of
`parseKanjiDictEntries`: `ok (some e)` appends an entry, `ok none` is the
silent drop of an empty translation list, `error` is a caught exception
(malformed shape), which the loop logs and skips. -/
def parseDictSubEntry (v : PyVal) : Except Unit (Option KanjiDictionaryEntry) :=
  match v with
  | .vlist [w, t] =>
    match asStr w, asStrList t with
    | some word, some translations =>
      if 0 < translations.length then .ok (some ⟨word, translations⟩) else .ok none
    | _, _ => .error ()
  | _ => .error ()

/-- `parseKanjiDictEntries`: parsed entries plus the warnings logged for the
sub-entries that raised. -/
def parseKanjiDictEntries : List PyVal → List KanjiDictionaryEntry × List String
  | [] => ([], [])
  | v :: rest =>
    let res := parseKanjiDictEntries rest
    match parseDictSubEntry v with
    | .ok (some e) => (e :: res.1, res.2)
    | .ok none => (res.1, res.2)
    | .error _ => (res.1, "Failed to parse kanji dictionary entry, skipping" :: res.2)

/-- Field extraction of the `try` block of the dictionary-file loop, after
arity dispatch: the symbol must be a usable string, the three field lists
must be string lists, the raw dictionary entries must be an array. -/
def parseKanjiBuilt (symV meaningsV kunV onV dictV : PyVal) :
    Option (KanjiData × List PyVal) := do
  let symS ← asStr symV
  let base ← mkKanjiData symS
  let meanings ← asStrList meaningsV
  let kunReadings ← asStrList kunV
  let onReadings ← asStrList onV
  let rawDict ← asList dictV
  pure ({ base with
    meanings := meanings
    kun_readings := kunReadings
    on_readings := onReadings }, rawDict)

/-- Record construction of the `try` block: a failed extraction is the
caught exception (logged and skipped); a successful one parses the raw
dictionary sub-entries and keeps their warnings. -/
def parseKanjiFields (symV meaningsV kunV onV dictV : PyVal) :
    Option KanjiData × List String :=
  match parseKanjiBuilt symV meaningsV kunV onV dictV with
  | none => (none, ["Failed to read kanji, ignoring"])
  | some (k, rawDict) =>
    let sub := parseKanjiDictEntries rawDict
    (some { k with dictionary_entries := sub.1 }, sub.2)

/-- One iteration of the `for kanjiEntry in jsonObj` loop of
`lookupKanjiSymbolsDict`: an entry of arity four has no dictionary entries,
an entry of arity five carries them, anything else raises, is logged and is
skipped. -/
def parseKanjiFileEntryW (entry : PyVal) : Option KanjiData × List String :=
  match entry with
  | .vlist [a, b, c, d] => parseKanjiFields a b c d (.vlist [])
  | .vlist [a, b, c, d, e] => parseKanjiFields a b c d e
  | _ => (none, ["Failed to read kanji, ignoring"])

/-- The dictionary-file loading loop: every entry parsed in order, failures
skipped, warnings accumulated in order. -/
def loadKanjiDict : List PyVal → List KanjiData × List String
  | [] => ([], [])
  | e :: rest =>
    let r := parseKanjiFileEntryW e
    let res := loadKanjiDict rest
    match r.1 with
    | some k => (k :: res.1, r.2 ++ res.2)
    | none => (res.1, r.2 ++ res.2)

/-- Lookup of a requested symbol in the loaded records, modelling the
`kanjiDict` Python dictionary keyed by symbol: a later entry with the same
symbol overwrites an earlier one, so the last matching record wins. -/
def dictLookup (records : List KanjiData) (sym : String) : Option KanjiData :=
  (records.filter (fun k => k.symbol == sym)).getLast?

/-- The request loop of `lookupKanjiSymbolsDict`: absent symbols are logged
and omitted, present symbols resolved in order. -/
def resolveSyms (records : List KanjiData) : List String → List KanjiData × List String
  | [] => ([], [])
  | sym :: rest =>
    let res := resolveSyms records rest
    match dictLookup records sym with
    | none => (res.1, ("Kanji " ++ sym ++ " not present in dictionary, ignoring") :: res.2)
    | some k => (k :: res.1, res.2)

/-- `lookupKanjiSymbolsDict` on a decoded dictionary file: loads all
well-formed records, then resolves the requested symbols; returns the
records and the warnings. -/
def lookupKanjiSymbolsDict (fileContent : List PyVal) (kanjiSyms : List String) :
    List KanjiData × List String :=
  let loaded := loadKanjiDict fileContent
  let res := resolveSyms loaded.1 kanjiSyms
  (res.1, loaded.2 ++ res.2)

/-- Python's `sub in s` substring test. -/
def strContains (s sub : String) : Bool :=
  (List.range (s.length + 1)).any (fun i => sub.isPrefixOf (s.drop i))

/-- The JSON body returned by the per-kanji API endpoint. -/
structure ApiContent where
  kun_readings : List String
  on_readings : List String
  meanings : List String

/-- `lookupKanjiSymbolsAPI` with the remote service abstracted as a function
from symbol to response body.  Returns the built records together with the
list of symbols requested, in request order; `none` models the uncaught
exception of `KanjiData('')`, which terminates the run. -/
def lookupKanjiSymbolsAPI (api : String → ApiContent) :
    List String → Option (List KanjiData × List String)
  | [] => some ([], [])
  | kanjisym :: rest => do
    let base ← mkKanjiData kanjisym
    let content := api kanjisym
    let kanji := { base with
      kun_readings := content.kun_readings.take 3
      on_readings := content.on_readings.take 3
      meanings := (content.meanings.filter
        (fun x => !strContains x "radical" && !strContains x "counter")).take 3 }
    let res ← lookupKanjiSymbolsAPI api rest
    pure (kanji :: res.1, kanjisym :: res.2)

/-- Blank canvas (A4 format of `FPDF()`) used to instantiate witnesses. -/
def pdf0 : PdfState := ⟨210, 297, 0, 0, 0, 0, []⟩

/-- A fixed API response used to instantiate witnesses: four kun readings
and five meanings, one of which mentions a radical. -/
def api0 : String → ApiContent :=
  fun _ => ⟨["a", "b", "c", "d"], ["e"], ["radical x", "f", "g", "h", "i"]⟩

@[simp]
theorem PdfState.cell_y_top (s : PdfState) (cw ch : ℚ) (b : Bool)
    (t : Option String) (nx : XPos) : (s.cell cw ch b t nx .TOP).y = s.y := rfl

@[simp]
theorem PdfState.multi_cell_y (s : PdfState) (cw ch : ℚ) (t : String) :
    (s.multi_cell cw ch t).y = s.y := rfl

@[simp]
theorem PdfState.ln_y (s : PdfState) (ch : ℚ) : (s.ln ch).y = s.y + ch := rfl

@[simp]
theorem PdfState.set_x_y (s : PdfState) (v : ℚ) : (s.set_x v).y = s.y := rfl

@[simp]
theorem PdfState.set_y_y (s : PdfState) (v : ℚ) : (s.set_y v).y = v := rfl

@[simp]
theorem PdfState.set_font_y (s : PdfState) (f st : String) (sz : ℚ) :
    (s.set_font f st sz).y = s.y := rfl

@[simp]
theorem PdfState.set_draw_color_y (s : PdfState) (r g b : ℕ) :
    (s.set_draw_color r g b).y = s.y := rfl

@[simp]
theorem PdfState.line_y (s : PdfState) (x1 y1 x2 y2 : ℚ) :
    (s.line x1 y1 x2 y2).y = s.y := rfl

@[simp]
theorem PdfState.image_y (s : PdfState) (n : String) (iw ih : ℚ) :
    (s.image n iw ih).y = s.y := rfl

@[simp]
theorem render_write_cell_y (style : StyleOptions) (pdf : PdfState)
    (cell_width : ℚ) : (render_write_cell style pdf cell_width).y = pdf.y := by
  cases h : style.crossGuide <;> simp [render_write_cell, h]

@[simp]
theorem render_write_row_y (style : StyleOptions) (pdf : PdfState)
    (cell_width : ℚ) (n : ℕ) :
    (render_write_row style pdf cell_width n).y = pdf.y := by
  induction n with
  | zero => rfl
  | succ n ih => simp [render_write_row, ih]

@[simp]
theorem render_readings_y (env : Env) (pdf : PdfState) (cell_width : ℚ)
    (readings : List String) :
    (render_readings env pdf cell_width readings).y = pdf.y := by
  unfold render_readings
  split <;> simp

@[simp]
theorem render_meaning_block_y (env : Env) (pdf : PdfState) (kanji : KanjiData)
    (cell_width cells : ℚ) :
    (render_meaning_block env pdf kanji cell_width cells).y = pdf.y := rfl

@[simp]
theorem render_dictionary_block_y (pdf : PdfState) (kanji : KanjiData)
    (cell_width : ℚ) :
    (render_dictionary_block pdf kanji cell_width).y =
      pdf.y + (((min 3 kanji.dictionary_entries.length : ℕ) : ℚ) *
        (2 * (cell_width / 4) + cell_width / 10) + 2 * (cell_width / 10)) := by
  simp [render_dictionary_block]

/-- C10: the total vertical distance the cursor advances during
`render_kanji_block` (trailing gap and dictionary rectangle included) equals
the value of `calc_kanji_block_height` for that record and style, so the
page-break accounting of `renderDocument` matches the space drawing actually
consumes. -/
theorem claim_C10_render_advance_matches_height (env : Env) (style : StyleOptions)
    (pdf : PdfState) (kanji : KanjiData) (cell_width : ℚ) :
    (render_kanji_block env style pdf kanji cell_width).y - pdf.y =
      calc_kanji_block_height style kanji cell_width := by
  unfold render_kanji_block calc_kanji_block_height
  by_cases hd : (style.showDictionary : Prop) ∧ 0 < kanji.dictionary_entries.length <;>
    cases hb : style.bigKanji <;>
    cases hr : style.showRegularKanji <;>
    cases hs : env.strokeExists kanji.stroke_diagram_file <;>
    simp [hd, hb, hr, hs, min_comm] <;> ring

/-- C2: `calc_kanji_block_height` is a base of four cell widths in big-kanji
mode and three otherwise, plus a quarter-cell spacer, plus — exactly when
dictionary display is active and the record has at least one entry — the
height of `min 3 n` two-line rows with padding. -/
theorem claim_C2_block_height_formula (style : StyleOptions) (kanji : KanjiData)
    (cell_width : ℚ) :
    calc_kanji_block_height style kanji cell_width =
      (if style.bigKanji then 4 * cell_width else 3 * cell_width)
        + (1 / 4) * cell_width
        + (if style.showDictionary ∧ kanji.dictionary_entries ≠ [] then
            ((min 3 kanji.dictionary_entries.length : ℕ) : ℚ) *
              (2 * (cell_width / 4) + cell_width / 10) + 2 * (cell_width / 10)
          else 0) := by
  unfold calc_kanji_block_height
  simp only [List.length_pos]
  split_ifs <;> simp [min_comm] <;> ring

/-- A writing-practice cell reads the style only through the cross-guide
flag. -/
theorem render_write_cell_styleInv (a b : StyleOptions)
    (h : a.crossGuide = b.crossGuide) (pdf : PdfState) (cell_width : ℚ) :
    render_write_cell a pdf cell_width = render_write_cell b pdf cell_width := by
  unfold render_write_cell
  rw [h]

/-- A row of writing-practice cells reads the style only through the
cross-guide flag. -/
theorem render_write_row_styleInv (a b : StyleOptions)
    (h : a.crossGuide = b.crossGuide) (pdf : PdfState) (cell_width : ℚ)
    (n : ℕ) :
    render_write_row a pdf cell_width n = render_write_row b pdf cell_width n := by
  induction n with
  | zero => rfl
  | succ n ih =>
    unfold render_write_row
    rw [ih, render_write_cell_styleInv a b h]

/-- C3: for a record with no dictionary entries, enabling the
dictionary-display flag changes neither the computed block height nor the
rendered layout. -/
theorem claim_C3_empty_dictionary_inert (env : Env) (style : StyleOptions)
    (pdf : PdfState) (kanji : KanjiData) (cell_width : ℚ)
    (h : kanji.dictionary_entries = []) :
    calc_kanji_block_height { style with showDictionary := true } kanji cell_width
      = calc_kanji_block_height { style with showDictionary := false } kanji cell_width
    ∧ render_kanji_block env { style with showDictionary := true } pdf kanji cell_width
      = render_kanji_block env { style with showDictionary := false } pdf kanji cell_width := by
  constructor
  · simp [calc_kanji_block_height, h]
  · have hw := render_write_row_styleInv { style with showDictionary := true }
      { style with showDictionary := false } rfl
    simp [render_kanji_block, h, hw]

/-- Witness for C3 at a concrete record with no dictionary entries. -/
theorem claim_C3_empty_dictionary_inert_witness :
    calc_kanji_block_height { ({} : StyleOptions) with showDictionary := true }
        ⟨"水", "06c34", ["みず"], ["スイ"], ["water"], []⟩ 1
      = calc_kanji_block_height { ({} : StyleOptions) with showDictionary := false }
        ⟨"水", "06c34", ["みず"], ["スイ"], ["water"], []⟩ 1
    ∧ render_kanji_block env0 { ({} : StyleOptions) with showDictionary := true }
        pdf0 ⟨"水", "06c34", ["みず"], ["スイ"], ["water"], []⟩ 1
      = render_kanji_block env0 { ({} : StyleOptions) with showDictionary := false }
        pdf0 ⟨"水", "06c34", ["みず"], ["スイ"], ["water"], []⟩ 1 :=
  claim_C3_empty_dictionary_inert env0 {} pdf0 _ 1 rfl

/-- C5: `render_readings` draws the literal text `none` for an empty reading
list, and otherwise one cell whose text is the comma-joined readings on one
line and the comma-joined romanisations on the next. -/
theorem claim_C5_readings_text (env : Env) (pdf : PdfState) (cell_width : ℚ)
    (readings : List String) :
    (readings = [] →
      newOps (fun s => render_readings env s cell_width readings) pdf
        = [.cell (cell_width * 3) cell_width true (some "none")])
    ∧ (readings ≠ [] →
      newOps (fun s => render_readings env s cell_width readings) pdf
        = [.multiCell (cell_width * 3) cell_width
            (String.intercalate ", " readings ++ "\n"
              ++ String.intercalate ", " (readings.map env.to_roma))]) := by
  constructor
  · intro h
    simp [newOps, render_readings, h, PdfState.cell]
  · intro h
    simp [newOps, render_readings, h, PdfState.multi_cell, List.length_eq_zero]

/-- Witness for C5 at a concrete non-empty reading list. -/
theorem claim_C5_readings_text_witness :
    newOps (fun s => render_readings env0 s 1 ["おと", "ね"]) pdf0
      = [.multiCell 3 1 ("おと, ね" ++ "\n" ++ "おと, ね")] := by
  have h := (claim_C5_readings_text env0 pdf0 1 ["おと", "ね"]).2 (by decide)
  simpa using h

set_option maxRecDepth 8192 in
/-- C4: with more than nine dictionary entries, `render_dictionary_block`
renders exactly the first nine — their words and joined translations are the
only texts drawn — grouped as three columns of three consecutive entries;
everything beyond the ninth entry is dropped. -/
theorem claim_C4_first_nine_rendered (pdf : PdfState) (cell_width : ℚ)
    (kanji : KanjiData) (e1 e2 e3 e4 e5 e6 e7 e8 e9 e10 : KanjiDictionaryEntry)
    (rest : List KanjiDictionaryEntry)
    (h : kanji.dictionary_entries
      = e1 :: e2 :: e3 :: e4 :: e5 :: e6 :: e7 :: e8 :: e9 :: e10 :: rest) :
    cellTexts (newOps (fun s => render_dictionary_block s kanji cell_width) pdf)
      = [e1.word, String.intercalate "; " e1.translations,
         e2.word, String.intercalate "; " e2.translations,
         e3.word, String.intercalate "; " e3.translations,
         e4.word, String.intercalate "; " e4.translations,
         e5.word, String.intercalate "; " e5.translations,
         e6.word, String.intercalate "; " e6.translations,
         e7.word, String.intercalate "; " e7.translations,
         e8.word, String.intercalate "; " e8.translations,
         e9.word, String.intercalate "; " e9.translations]
    ∧ (grouper3 kanji.dictionary_entries).take 3
      = [[some e1, some e2, some e3], [some e4, some e5, some e6],
         [some e7, some e8, some e9]] := by
  constructor
  · simp [newOps, render_dictionary_block, h, grouper3, render_dictionary_columns,
      render_dictionary_sub_block, render_dictionary_sub_entries, PdfState.cell,
      PdfState.set_x, PdfState.set_y, PdfState.set_font, PdfState.ln,
      cellTexts, List.drop_left]
  · simp [h, grouper3]

/-- Witness for C4 at a concrete record with ten dictionary entries. -/
theorem claim_C4_first_nine_rendered_witness :
    cellTexts (newOps (fun s => render_dictionary_block s
        ⟨"口", "053e3", [], [], [],
          [⟨"w1", ["a"]⟩, ⟨"w2", ["a"]⟩, ⟨"w3", ["a"]⟩, ⟨"w4", ["a"]⟩,
           ⟨"w5", ["a"]⟩, ⟨"w6", ["a"]⟩, ⟨"w7", ["a"]⟩, ⟨"w8", ["a"]⟩,
           ⟨"w9", ["a"]⟩, ⟨"w10", ["a"]⟩]⟩ 1) pdf0)
      = ["w1", "a", "w2", "a", "w3", "a", "w4", "a", "w5", "a",
         "w6", "a", "w7", "a", "w8", "a", "w9", "a"]
    ∧ (grouper3 [(⟨"w1", ["a"]⟩ : KanjiDictionaryEntry), ⟨"w2", ["a"]⟩, ⟨"w3", ["a"]⟩,
        ⟨"w4", ["a"]⟩, ⟨"w5", ["a"]⟩, ⟨"w6", ["a"]⟩, ⟨"w7", ["a"]⟩, ⟨"w8", ["a"]⟩,
        ⟨"w9", ["a"]⟩, ⟨"w10", ["a"]⟩]).take 3
      = [[some ⟨"w1", ["a"]⟩, some ⟨"w2", ["a"]⟩, some ⟨"w3", ["a"]⟩],
         [some ⟨"w4", ["a"]⟩, some ⟨"w5", ["a"]⟩, some ⟨"w6", ["a"]⟩],
         [some ⟨"w7", ["a"]⟩, some ⟨"w8", ["a"]⟩, some ⟨"w9", ["a"]⟩]] := by
  have h := claim_C4_first_nine_rendered pdf0 1
    ⟨"口", "053e3", [], [], [],
      [⟨"w1", ["a"]⟩, ⟨"w2", ["a"]⟩, ⟨"w3", ["a"]⟩, ⟨"w4", ["a"]⟩,
       ⟨"w5", ["a"]⟩, ⟨"w6", ["a"]⟩, ⟨"w7", ["a"]⟩, ⟨"w8", ["a"]⟩,
       ⟨"w9", ["a"]⟩, ⟨"w10", ["a"]⟩]⟩
    ⟨"w1", ["a"]⟩ ⟨"w2", ["a"]⟩ ⟨"w3", ["a"]⟩ ⟨"w4", ["a"]⟩ ⟨"w5", ["a"]⟩
    ⟨"w6", ["a"]⟩ ⟨"w7", ["a"]⟩ ⟨"w8", ["a"]⟩ ⟨"w9", ["a"]⟩ ⟨"w10", ["a"]⟩ [] rfl
  simpa using h

/-- C6: `applyOverrides` maps the per-record override step over the list;
a record whose symbol is absent from the table is unchanged, and for a
present symbol only the fields the override carries are replaced — a field
the override leaves at `None` keeps the record's value, and the symbol,
stroke file and dictionary entries are never touched. -/
theorem claim_C6_overrides_frame (kanjis : List KanjiData) (kanji : KanjiData) :
    applyOverrides kanjis = kanjis.map applyOverride1
    ∧ (overridesLookup kanji.symbol = none → applyOverride1 kanji = kanji)
    ∧ (∀ ov, overridesLookup kanji.symbol = some ov →
        (applyOverride1 kanji).symbol = kanji.symbol
        ∧ (applyOverride1 kanji).stroke_diagram_file = kanji.stroke_diagram_file
        ∧ (applyOverride1 kanji).dictionary_entries = kanji.dictionary_entries
        ∧ (applyOverride1 kanji).meanings = ov.meanings.getD kanji.meanings
        ∧ (applyOverride1 kanji).on_readings = ov.onOv.getD kanji.on_readings
        ∧ (applyOverride1 kanji).kun_readings = ov.kunOv.getD kanji.kun_readings) := by
  refine ⟨rfl, ?_, ?_⟩
  · intro h
    simp [applyOverride1, h]
  · intro ov h
    obtain ⟨m, o, k⟩ := ov
    cases m <;> cases o <;> cases k <;> simp [applyOverride1, h]

/-- Witness for C6: the curated override for 本 carries only meanings, and
applying it replaces the meanings while both reading lists survive. -/
theorem claim_C6_overrides_frame_witness :
    (applyOverride1 ⟨"本", "0672c", ["もと"], ["ホン"], ["origin"], []⟩).meanings = ["book"]
    ∧ (applyOverride1 ⟨"本", "0672c", ["もと"], ["ホン"], ["origin"], []⟩).on_readings = ["ホン"]
    ∧ (applyOverride1 ⟨"本", "0672c", ["もと"], ["ホン"], ["origin"], []⟩).kun_readings = ["もと"] := by
  have h := (claim_C6_overrides_frame []
    ⟨"本", "0672c", ["もと"], ["ホン"], ["origin"], []⟩).2.2
    { meanings := some ["book"] } (by decide)
  exact ⟨by simpa using h.2.2.2.1, by simpa using h.2.2.2.2.1,
    by simpa using h.2.2.2.2.2⟩

/-- An element the optional last-element accessor returns is in the list. -/
theorem getLast?_mem_of_eq {α : Type} {l : List α} {a : α}
    (h : l.getLast? = some a) : a ∈ l := by
  induction l with
  | nil => simp at h
  | cons x xs ih =>
    cases xs with
    | nil => simp_all
    | cons y ys =>
      rw [List.getLast?_cons_cons] at h
      exact List.mem_cons_of_mem _ (ih h)

/-- A record found under a symbol carries that symbol. -/
theorem dictLookup_symbol {records : List KanjiData} {sym : String}
    {k : KanjiData} (h : dictLookup records sym = some k) : k.symbol = sym := by
  unfold dictLookup at h
  have hm : k ∈ records.filter (fun x => x.symbol == sym) := getLast?_mem_of_eq h
  have hb : (k.symbol == sym) = true := by simpa using List.of_mem_filter hm
  exact eq_of_beq hb

/-- No record resolved by the request loop carries a symbol that is absent
from the loaded records. -/
theorem resolveSyms_no_absent {records : List KanjiData} {sym : String}
    (habs : dictLookup records sym = none) :
    ∀ syms, ∀ r ∈ (resolveSyms records syms).1, r.symbol ≠ sym := by
  intro syms
  induction syms with
  | nil => simp [resolveSyms]
  | cons s rest ih =>
    intro r hr heq
    cases hls : dictLookup records s with
    | none =>
      simp only [resolveSyms, hls] at hr
      exact ih r hr heq
    | some k =>
      simp only [resolveSyms, hls, List.mem_cons] at hr
      rcases hr with rfl | hr
      · have hs := dictLookup_symbol hls
        rw [heq] at hs
        rw [← hs] at hls
        rw [habs] at hls
        exact Option.noConfusion hls
      · exact ih r hr heq

/-- The request loop logs the not-present warning for every requested
symbol that is absent from the loaded records. -/
theorem resolveSyms_warns {records : List KanjiData} {sym : String}
    (habs : dictLookup records sym = none) :
    ∀ syms, sym ∈ syms →
      ("Kanji " ++ sym ++ " not present in dictionary, ignoring")
        ∈ (resolveSyms records syms).2 := by
  intro syms
  induction syms with
  | nil => simp
  | cons s rest ih =>
    intro hmem
    rcases List.mem_cons.mp hmem with rfl | hmem
    · simp [resolveSyms, habs]
    · cases hls : dictLookup records s with
      | none =>
        simp only [resolveSyms, hls, List.mem_cons]
        right
        exact ih hmem
      | some k =>
        simp only [resolveSyms, hls]
        exact ih hmem

/-- Removing a symbol that is absent from the loaded records from the
request list leaves the resolved records unchanged. -/
theorem resolveSyms_filter_absent {records : List KanjiData} {sym : String}
    (habs : dictLookup records sym = none) :
    ∀ syms, (resolveSyms records syms).1
      = (resolveSyms records (syms.filter (fun s => s != sym))).1 := by
  intro syms
  induction syms with
  | nil => rfl
  | cons s rest ih =>
    by_cases hss : s = sym
    · subst hss
      simp [resolveSyms, habs, ih]
    · have hf : (s != sym) = true := by simpa using hss
      cases hls : dictLookup records s with
      | none => simp [resolveSyms, hls, ih, hf]
      | some k => simp [resolveSyms, hls, ih, hf]

/-- C7: a requested symbol absent from the dictionary file is omitted from
the returned record list with a non-fatal warning, and removing it from the
request changes nothing — all remaining requested symbols still resolve. -/
theorem claim_C7_absent_symbol_skipped (fileContent : List PyVal)
    (kanjiSyms : List String) (sym : String)
    (habs : dictLookup (loadKanjiDict fileContent).1 sym = none)
    (hmem : sym ∈ kanjiSyms) :
    (∀ r ∈ (lookupKanjiSymbolsDict fileContent kanjiSyms).1, r.symbol ≠ sym)
    ∧ ("Kanji " ++ sym ++ " not present in dictionary, ignoring")
        ∈ (lookupKanjiSymbolsDict fileContent kanjiSyms).2
    ∧ (lookupKanjiSymbolsDict fileContent kanjiSyms).1
        = (lookupKanjiSymbolsDict fileContent
            (kanjiSyms.filter (fun s => s != sym))).1 := by
  refine ⟨?_, ?_, ?_⟩
  · intro r hr
    exact resolveSyms_no_absent habs kanjiSyms r
      (by simpa [lookupKanjiSymbolsDict] using hr)
  · have h := resolveSyms_warns habs kanjiSyms hmem
    simp only [lookupKanjiSymbolsDict, List.mem_append]
    exact Or.inr h
  · simpa [lookupKanjiSymbolsDict] using resolveSyms_filter_absent habs kanjiSyms

/-- Witness for C7: a one-record dictionary file, a request with one present
and one absent symbol. -/
theorem claim_C7_absent_symbol_skipped_witness :
    (∀ r ∈ (lookupKanjiSymbolsDict
        [.vlist [.vstr "日", .vlist [.vstr "day"], .vlist [], .vlist []]]
        ["日", "木"]).1, r.symbol ≠ "木")
    ∧ ("Kanji " ++ "木" ++ " not present in dictionary, ignoring")
        ∈ (lookupKanjiSymbolsDict
            [.vlist [.vstr "日", .vlist [.vstr "day"], .vlist [], .vlist []]]
            ["日", "木"]).2
    ∧ (lookupKanjiSymbolsDict
        [.vlist [.vstr "日", .vlist [.vstr "day"], .vlist [], .vlist []]]
        ["日", "木"]).1
      = (lookupKanjiSymbolsDict
          [.vlist [.vstr "日", .vlist [.vstr "day"], .vlist [], .vlist []]]
          (["日", "木"].filter (fun s => s != "木"))).1 :=
  claim_C7_absent_symbol_skipped
    [.vlist [.vstr "日", .vlist [.vstr "day"], .vlist [], .vlist []]]
    ["日", "木"] "木" (by decide) (by decide)

/-- A failed field extraction produces exactly the read warning. -/
theorem parseKanjiFields_warns {a b c d e : PyVal}
    (h : (parseKanjiFields a b c d e).1 = none) :
    (parseKanjiFields a b c d e).2 = ["Failed to read kanji, ignoring"] := by
  cases hb : parseKanjiBuilt a b c d e with
  | none => simp [parseKanjiFields, hb]
  | some v =>
    obtain ⟨k, rawDict⟩ := v
    simp [parseKanjiFields, hb] at h

/-- A skipped file entry always logs the read warning. -/
theorem parseKanjiFileEntryW_warns {e : PyVal}
    (h : (parseKanjiFileEntryW e).1 = none) :
    (parseKanjiFileEntryW e).2 = ["Failed to read kanji, ignoring"] := by
  rcases e with s | l
  · rfl
  · match l with
    | [] => rfl
    | [a] => rfl
    | [a, b] => rfl
    | [a, b, c] => rfl
    | [a, b, c, d] => exact parseKanjiFields_warns h
    | [a, b, c, d, e5] => exact parseKanjiFields_warns h
    | a :: b :: c :: d :: e5 :: f :: tl => rfl

/-- Dropping a malformed file entry does not change which records load. -/
theorem loadKanjiDict_skip {bad : PyVal}
    (hbad : (parseKanjiFileEntryW bad).1 = none) (post : List PyVal) :
    ∀ pre, (loadKanjiDict (pre ++ bad :: post)).1 = (loadKanjiDict (pre ++ post)).1 := by
  intro pre
  induction pre with
  | nil => simp [loadKanjiDict, hbad]
  | cons p pre ih =>
    cases hp : (parseKanjiFileEntryW p).1 <;>
      simp [loadKanjiDict, hp, ih]

/-- The malformed file entry's warning is logged wherever it sits in the
batch. -/
theorem loadKanjiDict_skip_warns {bad : PyVal}
    (hbad : (parseKanjiFileEntryW bad).1 = none) (post : List PyVal) :
    ∀ pre, "Failed to read kanji, ignoring" ∈ (loadKanjiDict (pre ++ bad :: post)).2 := by
  intro pre
  induction pre with
  | nil =>
    simp only [List.nil_append, loadKanjiDict, hbad, parseKanjiFileEntryW_warns hbad,
      List.mem_append, List.mem_cons]
    left
    simp [parseKanjiFileEntryW_warns hbad]
  | cons p pre ih =>
    cases hp : (parseKanjiFileEntryW p).1 <;>
      simp only [List.cons_append, loadKanjiDict, hp, List.mem_append] <;>
      exact Or.inr ih

/-- Dropping an invalid dictionary sub-entry does not change which
sub-entries parse. -/
theorem parseKanjiDictEntries_skip {subBad : PyVal}
    (hsub : (parseKanjiDictEntries [subBad]).1 = []) (subPost : List PyVal) :
    ∀ subPre, (parseKanjiDictEntries (subPre ++ subBad :: subPost)).1
      = (parseKanjiDictEntries (subPre ++ subPost)).1 := by
  intro subPre
  induction subPre with
  | nil =>
    simp only [List.nil_append]
    cases hx : parseDictSubEntry subBad with
    | ok o =>
      cases o with
      | none => simp [parseKanjiDictEntries, hx]
      | some e => simp [parseKanjiDictEntries, hx] at hsub
    | error u => simp [parseKanjiDictEntries, hx]
  | cons p subPre ih =>
    cases hx : parseDictSubEntry p with
    | ok o => cases o <;> simp [parseKanjiDictEntries, hx, ih]
    | error u => simp [parseKanjiDictEntries, hx, ih]

/-- C8: a malformed top-level record is skipped with a logged warning and
an invalid dictionary sub-entry is dropped, each individually — the batch is
never aborted and all well-formed entries before and after still load. -/
theorem claim_C8_partial_failure (pre post : List PyVal) (bad : PyVal)
    (subPre subPost : List PyVal) (subBad : PyVal)
    (hbad : (parseKanjiFileEntryW bad).1 = none)
    (hsub : (parseKanjiDictEntries [subBad]).1 = []) :
    (loadKanjiDict (pre ++ bad :: post)).1 = (loadKanjiDict (pre ++ post)).1
    ∧ "Failed to read kanji, ignoring" ∈ (loadKanjiDict (pre ++ bad :: post)).2
    ∧ (∀ syms, (lookupKanjiSymbolsDict (pre ++ bad :: post) syms).1
        = (lookupKanjiSymbolsDict (pre ++ post) syms).1)
    ∧ (parseKanjiDictEntries (subPre ++ subBad :: subPost)).1
        = (parseKanjiDictEntries (subPre ++ subPost)).1 := by
  refine ⟨loadKanjiDict_skip hbad post pre, loadKanjiDict_skip_warns hbad post pre,
    ?_, parseKanjiDictEntries_skip hsub subPost subPre⟩
  intro syms
  simp [lookupKanjiSymbolsDict, loadKanjiDict_skip hbad post pre]

/-- Witness for C8: an empty-array record between two well-formed records,
and an empty-array sub-entry after a well-formed sub-entry. -/
theorem claim_C8_partial_failure_witness :
    (loadKanjiDict
        ([.vlist [.vstr "日", .vlist [.vstr "day"], .vlist [], .vlist []]]
          ++ .vlist [] :: [.vlist [.vstr "木", .vlist [.vstr "tree"], .vlist [], .vlist []]])).1
      = (loadKanjiDict
          ([.vlist [.vstr "日", .vlist [.vstr "day"], .vlist [], .vlist []]]
            ++ [.vlist [.vstr "木", .vlist [.vstr "tree"], .vlist [], .vlist []]])).1
    ∧ "Failed to read kanji, ignoring" ∈ (loadKanjiDict
        ([.vlist [.vstr "日", .vlist [.vstr "day"], .vlist [], .vlist []]]
          ++ .vlist [] :: [.vlist [.vstr "木", .vlist [.vstr "tree"], .vlist [], .vlist []]])).2
    ∧ (parseKanjiDictEntries
        ([.vlist [.vstr "w", .vlist [.vstr "t"]]] ++ .vlist [] :: [])).1
      = (parseKanjiDictEntries ([.vlist [.vstr "w", .vlist [.vstr "t"]]] ++ [])).1 := by
  have h := claim_C8_partial_failure
    [.vlist [.vstr "日", .vlist [.vstr "day"], .vlist [], .vlist []]]
    [.vlist [.vstr "木", .vlist [.vstr "tree"], .vlist [], .vlist []]]
    (.vlist []) [.vlist [.vstr "w", .vlist [.vstr "t"]]] [] (.vlist [])
    (by decide) (by decide)
  exact ⟨h.1, h.2.1, h.2.2.2⟩

/-- The record constructor succeeds on every non-empty symbol. -/
theorem mkKanjiData_of_ne_empty {s : String} (h : s ≠ "") :
    ∃ k, mkKanjiData s = some k := by
  obtain ⟨data⟩ := s
  cases data with
  | nil => exact absurd rfl h
  | cons c cs => exact ⟨_, rfl⟩

/-- C9: the API lookup issues exactly one request per requested symbol, in
order and without deduplication — the request log equals the input list, so
duplicates request and produce duplicates — and every returned record holds
at most three kun readings, three on readings and three meanings. -/
theorem claim_C9_api_requests_and_truncation (api : String → ApiContent)
    (syms : List String) (h : ∀ s ∈ syms, s ≠ "") :
    ∃ records, lookupKanjiSymbolsAPI api syms = some (records, syms)
      ∧ records.length = syms.length
      ∧ ∀ r ∈ records, r.kun_readings.length ≤ 3
          ∧ r.on_readings.length ≤ 3 ∧ r.meanings.length ≤ 3 := by
  induction syms with
  | nil => exact ⟨[], rfl, rfl, by simp⟩
  | cons sym rest ih =>
    obtain ⟨base, hbase⟩ := mkKanjiData_of_ne_empty (h sym (List.mem_cons_self sym rest))
    obtain ⟨recs, hrec, hlen, hbound⟩ := ih (fun s hs => h s (List.mem_cons_of_mem _ hs))
    refine ⟨{ base with
        kun_readings := (api sym).kun_readings.take 3
        on_readings := (api sym).on_readings.take 3
        meanings := ((api sym).meanings.filter
          (fun x => !strContains x "radical" && !strContains x "counter")).take 3 } :: recs,
      ?_, by simp [hlen], ?_⟩
    · simp [lookupKanjiSymbolsAPI, hbase, hrec]
    · intro r hr
      rcases List.mem_cons.mp hr with rfl | hr
      · exact ⟨List.length_take_le 3 _, List.length_take_le 3 _, List.length_take_le 3 _⟩
      · exact hbound r hr

/-- Witness for C9: a duplicated request list against the fixed response. -/
theorem claim_C9_api_requests_and_truncation_witness :
    ∃ records, lookupKanjiSymbolsAPI api0 ["日", "日"] = some (records, ["日", "日"])
      ∧ records.length = (["日", "日"] : List String).length
      ∧ ∀ r ∈ records, r.kun_readings.length ≤ 3
          ∧ r.on_readings.length ≤ 3 ∧ r.meanings.length ≤ 3 :=
  claim_C9_api_requests_and_truncation api0 ["日", "日"] (by decide)

/-- Page-break bookkeeping of the document loop: a record gets a fresh page
exactly when laying it out would drive the remaining space negative, an
exactly fitting record does not, and after a break the remaining space is
the full usable height minus the record's block height. -/
theorem renderLoop_trace (env : Env) (style : StyleOptions) (cw avail : ℚ) :
    ∀ (ks : List KanjiData) (pdf : PdfState) (hl : ℚ) (i : ℕ), i < ks.length →
      ((((renderLoop env style cw avail pdf hl ks).2.2.getD i (false, 0)).1 = true
        ↔ (if i = 0 then hl
            else ((renderLoop env style cw avail pdf hl ks).2.2.getD (i - 1) (false, 0)).2)
          - calc_kanji_block_height style (ks.getD i noKanji) cw < 0)
      ∧ (((renderLoop env style cw avail pdf hl ks).2.2.getD i (false, 0)).1 = true →
          ((renderLoop env style cw avail pdf hl ks).2.2.getD i (false, 0)).2
            = avail - calc_kanji_block_height style (ks.getD i noKanji) cw)
      ∧ ((if i = 0 then hl
            else ((renderLoop env style cw avail pdf hl ks).2.2.getD (i - 1) (false, 0)).2)
          = calc_kanji_block_height style (ks.getD i noKanji) cw →
          ((renderLoop env style cw avail pdf hl ks).2.2.getD i (false, 0)).1 = false)) := by
  intro ks
  induction ks with
  | nil =>
    intro pdf hl i hi
    simp at hi
  | cons k rest ih =>
    intro pdf hl i hi
    cases i with
    | zero =>
      refine ⟨?_, ?_, ?_⟩
      · simp [renderLoop, sub_neg]
      · intro hb
        simp only [renderLoop, List.getD_cons_zero] at hb ⊢
        rw [hb]
        simp
      · intro hfit
        have hfit' : hl = calc_kanji_block_height style k cw := by simpa using hfit
        simp [renderLoop, hfit']
    | succ j =>
      have hj : j < rest.length := by simpa using hi
      have H := ih (render_kanji_block env style
          (if decide (hl < calc_kanji_block_height style k cw) then pdf.add_page else pdf) k cw)
        ((if decide (hl < calc_kanji_block_height style k cw) then avail else hl)
          - calc_kanji_block_height style k cw) j hj
      cases j with
      | zero => simpa [renderLoop] using H
      | succ m => simpa [renderLoop] using H

/-- C1: in `renderDocument` a new page starts exactly before a record whose
block height exceeds the remaining space (would make it negative; an exact
fit does not break), and on the new page the remaining space restarts from
the usable height — page height minus one cell width — before the record's
height is subtracted. -/
theorem claim_C1_page_breaks (env : Env) (style : StyleOptions) (w h : ℚ)
    (kanjis : List KanjiData) (i : ℕ) (hi : i < kanjis.length) :
    (((renderDocument env style w h kanjis).2.2.getD i (false, 0)).1 = true
      ↔ (if i = 0 then h - w / 13
          else ((renderDocument env style w h kanjis).2.2.getD (i - 1) (false, 0)).2)
        - calc_kanji_block_height style (kanjis.getD i noKanji) (w / 13) < 0)
    ∧ (((renderDocument env style w h kanjis).2.2.getD i (false, 0)).1 = true →
        ((renderDocument env style w h kanjis).2.2.getD i (false, 0)).2
          = (h - w / 13) - calc_kanji_block_height style (kanjis.getD i noKanji) (w / 13))
    ∧ ((if i = 0 then h - w / 13
          else ((renderDocument env style w h kanjis).2.2.getD (i - 1) (false, 0)).2)
        = calc_kanji_block_height style (kanjis.getD i noKanji) (w / 13) →
        ((renderDocument env style w h kanjis).2.2.getD i (false, 0)).1 = false) := by
  simpa [renderDocument] using
    renderLoop_trace env style (w / 13) (h - w / 13) kanjis
      ((({ (⟨w, h, 0, 0, 0, 0, []⟩ : PdfState).set_font "NotoSansJP" "" 14 with
        lMargin := w / 13 / 2, tMargin := w / 13 / 2 } : PdfState).add_page))
      (h - w / 13) i hi

/-- Witness for C1 on a one-record document over a small page. -/
theorem claim_C1_page_breaks_witness :
    (((renderDocument env0 {} 13 10 [⟨"山", "05c71", [], [], [], []⟩]).2.2.getD 0
        (false, 0)).1 = true
      ↔ (if (0 : ℕ) = 0 then (10 : ℚ) - 13 / 13
          else ((renderDocument env0 {} 13 10 [⟨"山", "05c71", [], [], [], []⟩]).2.2.getD
            (0 - 1) (false, 0)).2)
        - calc_kanji_block_height {} ([(⟨"山", "05c71", [], [], [], []⟩ : KanjiData)].getD 0
            noKanji) (13 / 13) < 0)
    ∧ (((renderDocument env0 {} 13 10 [⟨"山", "05c71", [], [], [], []⟩]).2.2.getD 0
        (false, 0)).1 = true →
        ((renderDocument env0 {} 13 10 [⟨"山", "05c71", [], [], [], []⟩]).2.2.getD 0
          (false, 0)).2
          = ((10 : ℚ) - 13 / 13) - calc_kanji_block_height {}
              ([(⟨"山", "05c71", [], [], [], []⟩ : KanjiData)].getD 0 noKanji) (13 / 13))
    ∧ ((if (0 : ℕ) = 0 then (10 : ℚ) - 13 / 13
          else ((renderDocument env0 {} 13 10 [⟨"山", "05c71", [], [], [], []⟩]).2.2.getD
            (0 - 1) (false, 0)).2)
        = calc_kanji_block_height {} ([(⟨"山", "05c71", [], [], [], []⟩ : KanjiData)].getD 0
            noKanji) (13 / 13) →
        ((renderDocument env0 {} 13 10 [⟨"山", "05c71", [], [], [], []⟩]).2.2.getD 0
          (false, 0)).1 = false) :=
  claim_C1_page_breaks env0 {} 13 10 [⟨"山", "05c71", [], [], [], []⟩] 0 (by decide)
